import Mathlib

/-!
Shallow embedding of the snowbits Snowflake AI tutorial notebooks: the RAG
pipeline notebook (document chunking, the CortexEmbedding and CortexLLM wrapper
classes, the raw-input try/except cell), the credit-card-approval data
exploration notebook (age derivation, exploration steps, table uploads, state
shared between cells), and the Snowpark-pandas comparison notebook.
-/

/-! ## Chunking (RAG notebook, section 1.3) -/

/-- Modelled from the spec: the SQL function SPLIT_TEXT_RECURSIVE_CHARACTER is a
Snowflake vendor function whose implementation is not in this repository.  The
model follows the spec and the notebook text: the text is split into
CHUNK_LENGTH-character segments with CHUNK_OVERLAP characters of overlap between
consecutive segments, so consecutive starting positions differ by
CHUNK_LENGTH - CHUNK_OVERLAP.  The list of starting positions covers the text:
one start every stride characters while text remains. -/
def chunkStarts (stride len : Nat) : List Nat :=
  (List.range ((len + stride - 1) / stride)).map (fun i => i * stride)

/-- Modelled from the spec: chunking call of the data-preparation step,
each chunk is the CHUNK_LENGTH-character window of the text at its start. -/
def SPLIT_TEXT_RECURSIVE_CHARACTER (text : List Char) (chunkLength chunkOverlap : Nat) :
    List (List Char) :=
  (chunkStarts (chunkLength - chunkOverlap) text.length).map
    (fun s => (text.drop s).take chunkLength)

/-! ## Cortex wrapper classes (RAG notebook, sections 2.3 and 3.1) -/

/-- The vendor side of the two Cortex SQL functions the wrapper classes call:
CORTEX_EMBED and CORTEX_GENERATE_TEXT, abstracted as plain functions. -/
structure CortexOracle where
  embedFn : String → List Int
  generateFn : String → String

/-- One external vendor function call, recorded in a trace. -/
inductive VendorCall where
  | embed (text : String)
  | generateText (prompt : String)
deriving DecidableEq, Repr

/-- A row of the collected result of the CORTEX_EMBED select. -/
structure EmbeddingRow where
  EMBEDDING : List Int
deriving DecidableEq, Repr

/-- A row of the collected result of the CORTEX_GENERATE_TEXT select. -/
structure ResponseRow where
  RESPONSE : String
deriving DecidableEq, Repr

/-- session.create_dataframe on a list of single-column rows. -/
def create_dataframe (rows : List String) : List String := rows

/-- df.select(call_function("CORTEX_EMBED", df.TEXT)) followed by collect:
one output row and one vendor call per input row. -/
def selectCortexEmbed (o : CortexOracle) (df : List String) :
    List EmbeddingRow × List VendorCall :=
  (df.map (fun t => ⟨o.embedFn t⟩), df.map VendorCall.embed)

/-- df.select(call_function("CORTEX_GENERATE_TEXT", df.PROMPT)) followed by
collect: one output row and one vendor call per input row. -/
def selectCortexGenerateText (o : CortexOracle) (df : List String) :
    List ResponseRow × List VendorCall :=
  (df.map (fun p => ⟨o.generateFn p⟩), df.map VendorCall.generateText)

/-- result[0]["EMBEDDING"]: first-row indexing of the collected rows; none on an
empty result models the IndexError branch. -/
def firstEmbedding (rows : List EmbeddingRow) : Option (List Int) :=
  (rows[0]?).map EmbeddingRow.EMBEDDING

/-- result[0]["RESPONSE"]: first-row indexing of the collected rows; none on an
empty result models the IndexError branch. -/
def firstResponse (rows : List ResponseRow) : Option String :=
  (rows[0]?).map ResponseRow.RESPONSE

namespace CortexEmbedding

/-- CortexEmbedding.get_text_embedding: build a one-row dataframe from the text,
select the CORTEX_EMBED call over it, collect, and return row 0's EMBEDDING.
The second component is the trace of vendor calls the method performs. -/
def get_text_embedding (o : CortexOracle) (text : String) :
    Option (List Int) × List VendorCall :=
  let df := create_dataframe [text]
  let collected := selectCortexEmbed o df
  (firstEmbedding collected.1, collected.2)

/-- CortexEmbedding.aget_text_embedding: the async variant just returns
self.get_text_embedding(text). -/
def aget_text_embedding (o : CortexOracle) (text : String) :
    Option (List Int) × List VendorCall :=
  get_text_embedding o text

end CortexEmbedding

namespace CortexLLM

/-- CortexLLM.generate: build a one-row dataframe from the prompt, select the
CORTEX_GENERATE_TEXT call over it, collect, and return row 0's RESPONSE.
The second component is the trace of vendor calls the method performs. -/
def generate (o : CortexOracle) (prompt : String) :
    Option String × List VendorCall :=
  let df := create_dataframe [prompt]
  let collected := selectCortexGenerateText o df
  (firstResponse collected.1, collected.2)

end CortexLLM

/-! ## The raw-input try/except cell (RAG notebook, section 4.1) -/

def RAW_QUESTION : String := "What is Snowflake?"

/-- Observable outcome of running the raw-input-example cell: what it printed,
whether execution continues to the next cell, how many times
cortex_llm.generate was attempted, and the binding left for raw_response. -/
structure CellRun where
  printed : List String
  continuesToNextCell : Bool
  generateAttempts : Nat
  raw_response : Option String
deriving DecidableEq, Repr

/-- The raw-input-example cell: print the question, then try
cortex_llm.generate(raw_question); on success print the response, on an
exception print the error message; either way the cell completes. -/
def raw_input_example (genResult : Except String String) : CellRun :=
  match genResult with
  | Except.ok r =>
      ⟨["Raw Question: " ++ RAW_QUESTION, "Raw Response: " ++ r], true, 1, some r⟩
  | Except.error e =>
      ⟨["Raw Question: " ++ RAW_QUESTION, "Error generating response: " ++ e], true, 1, none⟩

/-! ## Age derivation (exploration notebook, CREATE_AGE_IN_YEARS cell) -/

/-- The lambda of the CREATE_AGE_IN_YEARS cell:
lambda x: np.floor(abs(x) / 365), then .astype(int). -/
def ageFromDaysBirth (x : Int) : Int := (x.natAbs / 365 : Nat)

/-- Abstract state of the live managed service a notebook session talks to:
here just the contents a table read would return. -/
structure ServiceState where
  catalogPage : List Int
deriving DecidableEq, Repr

/-- The CREATE_AGE_IN_YEARS cell's column computation: apply the age lambda to
the numeric DAYS_BIRTH column.  The service state is threaded because every
notebook operation runs against the live session; this one does not use it. -/
def CREATE_AGE_IN_YEARS (_s : ServiceState) (daysBirth : List Int) : List Int :=
  daysBirth.map ageFromDaysBirth

/-- spd.read_snowflake: a table read, whose result is the live service state. -/
def read_snowflake (s : ServiceState) : List Int := s.catalogPage

/-! ## Exploration steps (exploration notebook, sections 1, 2.1, 2.2) -/

/-- A dataframe-library call made by an exploration cell. -/
inductive LibCall where
  | describe | to_numeric | applyFn | astype
  | groupby | mean | reset_index | renameCols | mergeDf
  | countRows | drop_duplicates | select_dtypes | dtypes
  | nunique | dataframeCtor | agg | sort_values
deriving DecidableEq, Repr

/-- One dataframe exploration step of the notebook: its cell name, the sequence
of dataframe-library calls in its body, and whether it applies a transformation
function defined in the repository itself (a lambda). -/
structure ExplorationStep where
  stepName : String
  libCalls : List LibCall
  appliesRepoDefinedFn : Bool
deriving DecidableEq, Repr

/-- The dataframe exploration and transformation steps of the exploration
notebook, in cell order, with the library calls each cell body makes. -/
def explorationSteps : List ExplorationStep := [
  ⟨"APPLICATION_RECORD_DF", [.describe], false⟩,
  ⟨"CREDIT_REPORT_DF", [.describe], false⟩,
  ⟨"CREATE_AGE_IN_YEARS", [.to_numeric, .applyFn, .astype], true⟩,
  ⟨"FIND_AVG_AGE_PER_GENDER_INCOME_TYPE",
    [.groupby, .mean, .reset_index, .renameCols, .mergeDf], false⟩,
  ⟨"COUNT_TOTAL_ROWS", [.countRows], false⟩,
  ⟨"DROP_DUPLICATES", [.drop_duplicates, .countRows], false⟩,
  ⟨"NUMERIC_COLUMNS", [.select_dtypes], false⟩,
  ⟨"SCHEMA_EXPLORATION", [.dtypes], false⟩,
  ⟨"CATEGORICAL_COLUMNS", [.select_dtypes], false⟩,
  ⟨"GET_UNIQUE_CATEGORIES", [.nunique, .dataframeCtor], false⟩,
  ⟨"AVG_INCOME_PER_INCOME_TYPE_GENDER",
    [.groupby, .agg, .reset_index, .renameCols, .sort_values], false⟩]

/-! ## Bindings shared between cells (all three notebooks) -/

/-- The top-level bindings the notebooks create.  startTime and endTime stand
for the bindings named start and end in the comparison notebook. -/
inductive NotebookVar where
  | session
  | application_record_df | credit_record_df | grouped_df | row_count
  | numerical_columns | categorical_columns | unique_values | unique_values_df
  | analysis_df | my_imputer | snowpark_df
  | startTime | endTime | spd_df | data_size | cur | sqlText | native_pd_df
  | cortexEmbeddingClass | cortexLLMClass | df_chunks | nodes | embed_model
  | vector_store | index | cortex_llm | llm_predictor | service_context
  | raw_question | raw_response | response | question | summary_prompt
  | recommendation_prompt
deriving DecidableEq, Repr

/-- A notebook cell: the bindings it writes (binds, rebinds or mutates), and
the bindings from earlier cells it reads (reads that happen before the cell
itself writes that binding). -/
structure NotebookCell where
  cellName : String
  writes : List NotebookVar
  reads : List NotebookVar
deriving DecidableEq, Repr

/-- The code cells of the exploration notebook, in execution order. -/
def explorationNotebookCells : List NotebookCell := [
  ⟨"PACKAGE_IMPORTS", [], []⟩,
  ⟨"CREATE_SESSION", [.session], []⟩,
  ⟨"IMPORT_CSVS_INTO_DFS", [.application_record_df, .credit_record_df], []⟩,
  ⟨"APPLICATION_RECORD_DF", [], [.application_record_df]⟩,
  ⟨"CREDIT_REPORT_DF", [], [.credit_record_df]⟩,
  ⟨"UPLOAD_TO_TABLES", [], [.session, .application_record_df, .credit_record_df]⟩,
  ⟨"CREATE_AGE_IN_YEARS", [.application_record_df], [.application_record_df]⟩,
  ⟨"FIND_AVG_AGE_PER_GENDER_INCOME_TYPE",
    [.grouped_df, .application_record_df], [.application_record_df]⟩,
  ⟨"COUNT_TOTAL_ROWS", [.row_count], [.application_record_df]⟩,
  ⟨"DROP_DUPLICATES", [.application_record_df], [.application_record_df]⟩,
  ⟨"NUMERIC_COLUMNS", [.numerical_columns], [.application_record_df]⟩,
  ⟨"SCHEMA_EXPLORATION", [], [.application_record_df]⟩,
  ⟨"CATEGORICAL_COLUMNS", [.categorical_columns], [.application_record_df]⟩,
  ⟨"GET_UNIQUE_CATEGORIES",
    [.unique_values, .unique_values_df], [.application_record_df, .categorical_columns]⟩,
  ⟨"AVG_INCOME_PER_INCOME_TYPE_GENDER", [.analysis_df], [.application_record_df]⟩,
  ⟨"cell1", [.my_imputer, .snowpark_df], [.snowpark_df]⟩,
  ⟨"WRITE_TO_SNOWFLAKE", [], [.session, .application_record_df]⟩]

/-- The code cells of the RAG pipeline notebook, in execution order. -/
def ragNotebookCells : List NotebookCell := [
  ⟨"import-libraries", [], []⟩,
  ⟨"get-active-session", [.session], []⟩,
  ⟨"define-cortexembedding-class", [.cortexEmbeddingClass], []⟩,
  ⟨"build-index",
    [.df_chunks, .nodes, .embed_model, .vector_store, .index],
    [.session, .cortexEmbeddingClass]⟩,
  ⟨"define-cortexllm-class", [.cortexLLMClass], []⟩,
  ⟨"initialize-llm-predictor",
    [.cortex_llm, .llm_predictor, .service_context],
    [.session, .cortexLLMClass, .embed_model]⟩,
  ⟨"raw-input-example", [.raw_question, .raw_response], [.cortex_llm]⟩,
  ⟨"rag-output-example", [.response], [.index, .raw_question, .service_context]⟩,
  ⟨"use-case-1", [.question, .response], [.index, .service_context]⟩,
  ⟨"use-case-2-code", [.summary_prompt, .response], [.index, .service_context]⟩,
  ⟨"use-case-3-code", [.recommendation_prompt, .response], [.index, .service_context]⟩]

/-- The code cells of the Snowpark-pandas comparison notebook, in order. -/
def snowparkPandasNotebookCells : List NotebookCell := [
  ⟨"Import_Packages", [], []⟩,
  ⟨"Create_Snowflake_Session", [.session], []⟩,
  ⟨"Test_Snowflake_Pandas", [.startTime, .spd_df, .endTime, .data_size], []⟩,
  ⟨"Test_Native_Pandas",
    [.startTime, .cur, .sqlText, .native_pd_df, .endTime], [.session]⟩]

/-- Is there a cell that writes the binding, with a strictly later cell that
reads it? -/
def writtenThenReadLater (v : NotebookVar) : List NotebookCell → Bool
  | [] => false
  | c :: cs =>
      (c.writes.contains v && cs.any (fun c2 => c2.reads.contains v))
      || writtenThenReadLater v cs

/-- All binding names, in declaration order. -/
def allNotebookVars : List NotebookVar := [
  .session,
  .application_record_df, .credit_record_df, .grouped_df, .row_count,
  .numerical_columns, .categorical_columns, .unique_values, .unique_values_df,
  .analysis_df, .my_imputer, .snowpark_df,
  .startTime, .endTime, .spd_df, .data_size, .cur, .sqlText, .native_pd_df,
  .cortexEmbeddingClass, .cortexLLMClass, .df_chunks, .nodes, .embed_model,
  .vector_store, .index, .cortex_llm, .llm_predictor, .service_context,
  .raw_question, .raw_response, .response, .question, .summary_prompt,
  .recommendation_prompt]

/-- The bindings a notebook shares between cells: written by one cell and read
by a strictly later one. -/
def sharedBindings (cells : List NotebookCell) : List NotebookVar :=
  allNotebookVars.filter (fun v => writtenThenReadLater v cells)

/-! ## Table uploads (exploration notebook, UPLOAD_TO_TABLES and
WRITE_TO_SNOWFLAKE cells) -/

/-- session.write_pandas(df, table_name, auto_create_table=True,
overwrite=True): store the dataframe verbatim under the table name, replacing
any previous table of that name. -/
def write_pandas {α : Type} (tables : List (String × α)) (df : α)
    (tableName : String) : List (String × α) :=
  (tableName, df) :: tables.filter (fun p => p.1 != tableName)

/-- session.table(name): look the table up in the session state. -/
def tableNamed {α : Type} (tables : List (String × α)) (tname : String) :
    Option α :=
  (tables.find? (fun p => p.1 == tname)).map Prod.snd

/-- The UPLOAD_TO_TABLES cell: two write_pandas calls, one per dataframe. -/
def UPLOAD_TO_TABLES {α : Type} (tables : List (String × α))
    (application_record_df credit_record_df : α) : List (String × α) :=
  write_pandas (write_pandas tables application_record_df "APPLICATION_RECORD")
    credit_record_df "CREDIT_RECORD"

/-- The WRITE_TO_SNOWFLAKE cell: one write_pandas call. -/
def WRITE_TO_SNOWFLAKE {α : Type} (tables : List (String × α))
    (application_record_df : α) : List (String × α) :=
  write_pandas tables application_record_df "APPLICATION_RECORD"

/-! ## Helper lemmas -/

/-- Indexing the chunk list: chunk i is the 500-character window at position
i * 450, present while i is below the number of chunks. -/
theorem splitText_getD (text : List Char) (i : Nat) :
    (SPLIT_TEXT_RECURSIVE_CHARACTER text 500 50).getD i [] =
      if i < (text.length + 449) / 450 then (text.drop (i * 450)).take 500
      else [] := by
  unfold SPLIT_TEXT_RECURSIVE_CHARACTER chunkStarts
  norm_num
  by_cases h : i < (text.length + 449) / 450
  · rw [List.getElem?_range h, if_pos h]
    rfl
  · rw [List.getElem?_eq_none, if_neg h]
    · rfl
    · simpa using Nat.le_of_not_lt h

/-! ## Claim theorems -/

set_option maxRecDepth 10000 in
/-- Claim C1 fails as stated: on a 600-character text, the
SPLIT_TEXT_RECURSIVE_CHARACTER call with CHUNK_LENGTH 500 and CHUNK_OVERLAP 50
yields chunks of lengths 500 and 150, so not every chunk has exactly the fixed
size 500. -/
theorem chunks_not_all_of_length_500 :
    (SPLIT_TEXT_RECURSIVE_CHARACTER (List.replicate 600 'a') 500 50).map
        List.length = [500, 150] ∧
    ¬ ∀ c ∈ SPLIT_TEXT_RECURSIVE_CHARACTER (List.replicate 600 'a') 500 50,
        c.length = 500 := by
  constructor
  · decide
  · decide

/-- Claim C1 (amended): every chunk produced by the
SPLIT_TEXT_RECURSIVE_CHARACTER call with CHUNK_LENGTH 500 and CHUNK_OVERLAP 50
has at most 500 characters, and consecutive chunks start 450 characters apart:
the part of a chunk past its first 450 characters is exactly the first 50
characters of the next chunk, so two consecutive full-size chunks share exactly
50 characters. -/
theorem chunks_le_500_and_overlap_50 (text : List Char) :
    (∀ c ∈ SPLIT_TEXT_RECURSIVE_CHARACTER text 500 50, c.length ≤ 500) ∧
    ∀ i : Nat,
      ((SPLIT_TEXT_RECURSIVE_CHARACTER text 500 50).getD i []).drop 450 =
      ((SPLIT_TEXT_RECURSIVE_CHARACTER text 500 50).getD (i + 1) []).take 50 := by
  constructor
  · intro c hc
    unfold SPLIT_TEXT_RECURSIVE_CHARACTER at hc
    obtain ⟨s, _, rfl⟩ := List.mem_map.1 hc
    exact List.length_take_le _ _
  · intro i
    rw [splitText_getD, splitText_getD]
    by_cases h1 : i + 1 < (text.length + 449) / 450
    · have h0 : i < (text.length + 449) / 450 := Nat.lt_of_succ_lt h1
      rw [if_pos h0, if_pos h1, List.drop_take, List.drop_drop, List.take_take,
        Nat.succ_mul]
      norm_num
    · by_cases h0 : i < (text.length + 449) / 450
      · rw [if_pos h0, if_neg h1, List.take_nil]
        apply List.drop_eq_nil_of_le
        rw [List.length_take, List.length_drop]
        omega
      · rw [if_neg h0, if_neg h1]
        simp

/-- Witness for the amended claim C1 at a concrete three-character text, whose
single chunk is the whole text. -/
theorem chunks_le_500_and_overlap_50_witness :
    List.replicate 3 'b' ∈
        SPLIT_TEXT_RECURSIVE_CHARACTER (List.replicate 3 'b') 500 50 ∧
    (List.replicate 3 'b').length ≤ 500 :=
  ⟨by decide, (chunks_le_500_and_overlap_50 (List.replicate 3 'b')).1 _ (by decide)⟩

/-- Claim C2: for every oracle, text and prompt, get_text_embedding performs
exactly one CORTEX_EMBED call and returns its value, aget_text_embedding does
the same, and generate performs exactly one CORTEX_GENERATE_TEXT call and
returns its value: the call trace is a single call and the result is exactly
that call's value, so there is no retry loop, no batching, no caching and no
error-recovery branch. -/
theorem wrapper_methods_single_vendor_call (o : CortexOracle)
    (text prompt : String) :
    CortexEmbedding.get_text_embedding o text
        = (some (o.embedFn text), [VendorCall.embed text]) ∧
    CortexEmbedding.aget_text_embedding o text
        = (some (o.embedFn text), [VendorCall.embed text]) ∧
    CortexLLM.generate o prompt
        = (some (o.generateFn prompt), [VendorCall.generateText prompt]) :=
  ⟨rfl, rfl, rfl⟩

/-- Claim C3: when cortex_llm.generate raises, the raw-input-example cell's
except branch catches the exception, prints the error message, and the cell
completes so execution continues to the next cell; generate was attempted
exactly once (no retry) and no binding was mutated before the failure, so there
is nothing to roll back (raw_response stays unbound). -/
theorem raw_input_example_catches_and_continues (e : String) :
    (raw_input_example (Except.error e)).printed
        = ["Raw Question: " ++ RAW_QUESTION, "Error generating response: " ++ e] ∧
    (raw_input_example (Except.error e)).continuesToNextCell = true ∧
    (raw_input_example (Except.error e)).generateAttempts = 1 ∧
    (raw_input_example (Except.error e)).raw_response = none :=
  ⟨rfl, rfl, rfl, rfl⟩

/-- Claim C4 fails as stated: the age-derivation operation is a deterministic,
side-effect-free function of its inputs; at the concrete input [-10000] its
output [27] is the same under two distinct service states, so there is an
operation whose result is fully determined by its in-notebook inputs alone. -/
theorem age_op_independent_of_service_state :
    ServiceState.mk [0] ≠ ServiceState.mk [1] ∧
    CREATE_AGE_IN_YEARS (ServiceState.mk [0]) [-10000]
        = CREATE_AGE_IN_YEARS (ServiceState.mk [1]) [-10000] ∧
    CREATE_AGE_IN_YEARS (ServiceState.mk [0]) [-10000] = [27] :=
  ⟨by decide, rfl, by decide⟩

/-- Claim C4 (amended): operations that read the platform depend on the live
service state, but the age-derivation step is a deterministic, side-effect-free
function of its inputs: its output is the same for all service states. -/
theorem age_op_deterministic_reads_state_dependent :
    (∀ (s₁ s₂ : ServiceState) (xs : List Int),
        CREATE_AGE_IN_YEARS s₁ xs = CREATE_AGE_IN_YEARS s₂ xs) ∧
    ∃ s₁ s₂ : ServiceState, read_snowflake s₁ ≠ read_snowflake s₂ :=
  ⟨fun _ _ _ => rfl, ⟨ServiceState.mk [0], ServiceState.mk [1], by decide⟩⟩

/-- Claim C5 fails as stated: not every exploration step is a single library
call with no repository-defined logic; the grouped-average step
FIND_AVG_AGE_PER_GENDER_INCOME_TYPE chains five library calls. -/
theorem exploration_steps_not_all_single_call :
    explorationSteps.all
        (fun s => s.libCalls.length == 1 && !s.appliesRepoDefinedFn) = false ∧
    ∃ s ∈ explorationSteps,
      s.stepName = "FIND_AVG_AGE_PER_GENDER_INCOME_TYPE" ∧
      s.libCalls.length = 5 := by
  decide

/-- Claim C5 (amended): the simple inspection steps (describe, count, dtypes,
select_dtypes) are single library calls applying no repository-defined
function, but CREATE_AGE_IN_YEARS applies a repository-defined lambda and the
grouped-average step chains groupby, mean, reset_index, rename and merge. -/
theorem exploration_steps_shape :
    (explorationSteps.filter
        (fun s => s.libCalls.length == 1 && !s.appliesRepoDefinedFn)).map
        ExplorationStep.stepName
      = ["APPLICATION_RECORD_DF", "CREDIT_REPORT_DF", "COUNT_TOTAL_ROWS",
         "NUMERIC_COLUMNS", "SCHEMA_EXPLORATION", "CATEGORICAL_COLUMNS"] ∧
    (explorationSteps.filter (fun s => s.appliesRepoDefinedFn)).map
        ExplorationStep.stepName = ["CREATE_AGE_IN_YEARS"] ∧
    ∃ s ∈ explorationSteps,
      s.stepName = "FIND_AVG_AGE_PER_GENDER_INCOME_TYPE" ∧
      s.libCalls = [.groupby, .mean, .reset_index, .renameCols, .mergeDf] := by
  decide

/-- Claim C6 fails as stated: the binding application_record_df is not the
session handle, yet it is written by one cell of the exploration notebook and
read by a later cell. -/
theorem application_record_df_shared_between_cells :
    NotebookVar.application_record_df ≠ NotebookVar.session ∧
    writtenThenReadLater NotebookVar.application_record_df
        explorationNotebookCells = true := by
  decide

/-- Claim C6 (amended): cells run in order, but the session handle is not the
only binding shared between cells: the exploration notebook also shares the
dataframe bindings and the categorical column list, and the RAG notebook shares
the wrapper classes, the embedding model, the index, the LLM handle, the
service context and the question; only the comparison notebook shares nothing
beyond the session. -/
theorem shared_bindings_of_each_notebook :
    sharedBindings explorationNotebookCells
      = [.session, .application_record_df, .credit_record_df,
         .categorical_columns] ∧
    sharedBindings ragNotebookCells
      = [.session, .cortexEmbeddingClass, .cortexLLMClass, .embed_model,
         .index, .cortex_llm, .service_context, .raw_question] ∧
    sharedBindings snowparkPandasNotebookCells = [.session] := by
  decide

/-- Claim C7: the upload cells pass each in-memory dataframe to write_pandas
unchanged: after UPLOAD_TO_TABLES and WRITE_TO_SNOWFLAKE, the stored table is
exactly the dataframe that was passed, whatever the prior session state, so no
transformation happens between the dataframe and the write call. -/
theorem upload_steps_passthrough {α : Type} (tables : List (String × α))
    (application_record_df credit_record_df : α) :
    tableNamed (UPLOAD_TO_TABLES tables application_record_df credit_record_df)
        "APPLICATION_RECORD" = some application_record_df ∧
    tableNamed (UPLOAD_TO_TABLES tables application_record_df credit_record_df)
        "CREDIT_RECORD" = some credit_record_df ∧
    tableNamed (WRITE_TO_SNOWFLAKE tables application_record_df)
        "APPLICATION_RECORD" = some application_record_df := by
  refine ⟨?_, ?_, ?_⟩ <;>
    simp [UPLOAD_TO_TABLES, WRITE_TO_SNOWFLAKE, write_pandas, tableNamed,
      List.find?_cons, List.filter_cons]

/-- Claim C8: the async variant aget_text_embedding is extensionally equal to
the synchronous get_text_embedding: it returns exactly the same value for
every oracle and text. -/
theorem aget_text_embedding_eq_get_text_embedding (o : CortexOracle)
    (text : String) :
    CortexEmbedding.aget_text_embedding o text
      = CortexEmbedding.get_text_embedding o text :=
  rfl

/-- Claim C9: result[0] indexing of the collected rows is safe exactly when at
least one row came back: on a nonempty result it yields the first row's
EMBEDDING or RESPONSE field, on an empty result it is the error branch (none);
and the two wrapper methods return precisely this first-row extraction. -/
theorem first_row_indexing_conditionally_safe :
    (∀ (r : EmbeddingRow) (rs : List EmbeddingRow),
        firstEmbedding (r :: rs) = some r.EMBEDDING) ∧
    firstEmbedding [] = none ∧
    (∀ (r : ResponseRow) (rs : List ResponseRow),
        firstResponse (r :: rs) = some r.RESPONSE) ∧
    firstResponse [] = none ∧
    (∀ (o : CortexOracle) (text : String),
        (CortexEmbedding.get_text_embedding o text).1
          = firstEmbedding (selectCortexEmbed o (create_dataframe [text])).1) ∧
    (∀ (o : CortexOracle) (prompt : String),
        (CortexLLM.generate o prompt).1
          = firstResponse (selectCortexGenerateText o
              (create_dataframe [prompt])).1) := by
  refine ⟨fun r rs => ?_, rfl, fun r rs => ?_, rfl, fun o t => rfl, fun o p => rfl⟩
  · simp [firstEmbedding]
  · simp [firstResponse]

/-- Claim C10: for every integer DAYS_BIRTH value x, the age lambda computes
the integer floor of abs x / 365, and the resulting AGE column contains only
non-negative integers. -/
theorem age_floor_abs_div_365_nonneg (x : Int) :
    ageFromDaysBirth x = ⌊|(x : ℚ)| / (365 : ℚ)⌋ ∧
    0 ≤ ageFromDaysBirth x ∧
    ∀ (s : ServiceState) (xs : List Int),
      ∀ a ∈ CREATE_AGE_IN_YEARS s xs, 0 ≤ a := by
  refine ⟨?_, ?_, ?_⟩
  · show ((x.natAbs / 365 : ℕ) : ℤ) = ⌊|(x : ℚ)| / (365 : ℚ)⌋
    have habs : |(x : ℚ)| = ((x.natAbs : ℕ) : ℚ) := by
      rw [← Int.cast_abs, Int.abs_eq_natAbs, Int.cast_natCast]
    rw [habs, ← Int.natCast_floor_eq_floor (by positivity)]
    congr 1
    rw [show ((365 : ℚ)) = ((365 : ℕ) : ℚ) by norm_num, Nat.floor_div_eq_div]
  · show (0 : ℤ) ≤ ((x.natAbs / 365 : ℕ) : ℤ)
    exact Int.natCast_nonneg _
  · intro s xs a ha
    simp only [CREATE_AGE_IN_YEARS] at ha
    obtain ⟨y, _, rfl⟩ := List.mem_map.1 ha
    show (0 : ℤ) ≤ ((y.natAbs / 365 : ℕ) : ℤ)
    exact Int.natCast_nonneg _

/-- Witness for claim C10 at the concrete input -10000: the derived age 27 is
a member of the resulting AGE column and is non-negative. -/
theorem age_floor_abs_div_365_nonneg_witness :
    (27 : Int) ∈ CREATE_AGE_IN_YEARS (ServiceState.mk []) [-10000] ∧
    (0 : Int) ≤ 27 :=
  ⟨by decide,
   (age_floor_abs_div_365_nonneg (-10000)).2.2 (ServiceState.mk [])
     [-10000] 27 (by decide)⟩
